import Mathlib

/-!
# SLP daemon: orchestration layer and RPC facade (`tools/slp/SLPDaemon.cpp`)

A shallow embedding of `SLPDaemon` and `SLPDaemon::SLPServiceImpl`.

The methods of the source mutate objects reached through pointers and call
into collaborators whose code lives elsewhere (the SLP server, the select
server, sockets, protobuf closures).  The embedding threads one explicit
state through every method:

* protobuf message objects live in a heap indexed by their address
  (`replies`, `acks`);
* every call made on a collaborator is appended, in program order, to `calls`;
* every run of a completion closure is appended to `runs` together with the message
  objects as they stood when the closure was entered, so that what was written
  before the run and what after it can be told apart;
* every `OLA_INFO` line is appended to `log`;
* values returned by collaborators (`SLPServer::Init`,
  `TCPAcceptingSocket::Listen`) are inputs of the method that consumes them.
-/

namespace ola.slp

/-! ## Data model -/

/-- An `ola::network::IPV4Address`, as its four octets. -/
structure IPV4Address where
  a : Nat
  b : Nat
  c : Nat
  d : Nat
  deriving DecidableEq, Repr

/-- The value of `IPV4Address::Loopback()`. -/
def IPV4Address.Loopback : IPV4Address := ⟨127, 0, 0, 1⟩

/-- The text `operator<<` prints for an address. -/
def IPV4Address.ToString (x : IPV4Address) : String :=
  toString x.a ++ "." ++ toString x.b ++ "." ++ toString x.c ++ "." ++ toString x.d

/-- An `ola::network::IPV4SocketAddress`: host and port. -/
structure IPV4SocketAddress where
  host : IPV4Address
  port : Nat
  deriving DecidableEq, Repr

/-- A connected `TCPSocket`: its identity and what `GetPeer` reports for it. -/
structure TCPSocket where
  id : Nat
  peer_address : IPV4Address
  peer_port : Nat
  deriving DecidableEq, Repr

/-- A `URLEntry` of the SLP server, read through `URL()` and `Lifetime()`. -/
structure URLEntry where
  URL : String
  Lifetime : Nat
  deriving DecidableEq, Repr

/-- The `URLEntries` container handed to the find continuation, in iteration order. -/
abbrev URLEntries := List URLEntry

/-- The protobuf message `ola::slp::proto::Service`. -/
structure Service where
  service_name : String
  lifetime : Nat
  deriving DecidableEq, Repr

/-- The protobuf message `ola::slp::proto::ServiceReply`: a repeated `Service` field. -/
structure ServiceReply where
  service : List Service
  deriving DecidableEq, Repr

/-- The protobuf message `ola::slp::proto::ServiceAck`: the `error_code` field and its
presence bit. -/
structure ServiceAck where
  has_error_code : Bool
  error_code : Nat
  deriving DecidableEq, Repr

/-- The protobuf message `ola::slp::proto::ServiceRequest`: a repeated `scope` field and
the `service` string. -/
structure ServiceRequest where
  scope : List String
  service : String
  deriving DecidableEq, Repr

/-- The protobuf message `ola::slp::proto::ServiceRegistration`.  The handlers never read
it, so it is kept as its serialized bytes. -/
structure ServiceRegistration where
  wire : List Nat
  deriving DecidableEq, Repr

/-- The protobuf message `ola::slp::proto::ServiceDeRegistration`, kept as its serialized
bytes for the same reason. -/
structure ServiceDeRegistration where
  wire : List Nat
  deriving DecidableEq, Repr

/-- Accessor `request->scope_size()`. -/
def ServiceRequest.scope_size (r : ServiceRequest) : Nat := r.scope.length

/-- Accessor `request->scope(i)` for an index below `scope_size()`. -/
def ServiceRequest.scope_at (r : ServiceRequest) (i : Nat) : String := r.scope.getD i ""

/-- A descriptor that can be handed to the select server. -/
inductive Descriptor where
  | rpc_accept_socket
  | tcp (socket : TCPSocket)
  deriving DecidableEq, Repr

/-- The single-use callback built by
`NewSingleCallback(this, &SLPServiceImpl::FindServiceHandler, response, done)`:
the two bound arguments, `response` and `done`, by address. -/
structure FindServiceCallback where
  response : Nat
  done : Nat
  deriving DecidableEq, Repr

/-- The single-use callback built by
`NewSingleCallback(this, &SLPDaemon::RPCSocketClosed, socket)`. -/
structure OnCloseCallback where
  socket : TCPSocket
  deriving DecidableEq, Repr

/-- One call made on a collaborator object. -/
inductive Call where
  /-- Call `done->Run()` on the closure at address `done`. -/
  | closure_Run (done : Nat)
  /-- Call `m_slp_server.Init()`. -/
  | server_Init
  /-- Call `m_slp_server->FindService(scopes, service, callback)`. -/
  | server_FindService (scopes : Finset String) (service : String)
      (callback : FindServiceCallback)
  /-- Call `m_slp_server.DumpStore()`. -/
  | server_DumpStore
  /-- Call `m_slp_server.BulkLoad(scope, service, entries)`. -/
  | server_BulkLoad (scope : String) (service : String) (entries : URLEntries)
  /-- Call `m_rpc_accept_socket.Listen(address)`. -/
  | accept_Listen (address : IPV4SocketAddress)
  /-- Call `m_ss.AddReadDescriptor(descriptor)` or `m_ss.AddReadDescriptor(descriptor, true)`.
  The one-argument form passes no ownership and is recorded with `false`. -/
  | ss_AddReadDescriptor (descriptor : Descriptor) (delete_on_close : Bool)
  /-- Call `m_ss.Run()`. -/
  | ss_Run
  /-- Call `m_ss.Terminate()`. -/
  | ss_Terminate
  /-- Construction `new StreamRpcChannel(service, socket, m_export_map)`. -/
  | new_StreamRpcChannel (service : Nat) (socket : TCPSocket)
  /-- Call `socket->SetOnClose(callback)`. -/
  | socket_SetOnClose (socket : TCPSocket) (callback : OnCloseCallback)
  /-- Call `m_http_server->Init()`. -/
  | http_Init
  /-- Call `m_http_server->Start()`. -/
  | http_Start
  /-- Call `m_http_server->Stop()`. -/
  | http_Stop
  deriving DecidableEq

/-- Is this call `done->Run()` for the given closure? -/
def Call.isRun (done : Nat) : Call → Bool
  | .closure_Run d => d == done
  | _ => false

/-- Is this call a call on the SLP server (the discovery engine)? -/
def Call.isServerCall : Call → Bool
  | .server_Init => true
  | .server_FindService _ _ _ => true
  | .server_DumpStore => true
  | .server_BulkLoad _ _ _ => true
  | _ => false

/-- The descriptor registrations among a sequence of calls, in order. -/
def registrations : List Call → List (Descriptor × Bool)
  | [] => []
  | .ss_AddReadDescriptor d o :: cs => (d, o) :: registrations cs
  | _ :: cs => registrations cs

/-- The `SLPDaemonOptions` fields read by the constructor. -/
structure SLPDaemonOptions where
  enable_http : Bool
  http_port : Nat
  rpc_port : Nat
  deriving DecidableEq, Repr

/-- One run of a completion closure: which closure ran, and the message objects as they
stood at the moment `Run()` was entered (what the closure can read and send). -/
structure ClosureRun where
  /-- The closure that ran, by address. -/
  done : Nat
  /-- The `ServiceReply` objects at the moment of the run. -/
  replies : Nat → ServiceReply
  /-- The `ServiceAck` objects at the moment of the run. -/
  acks : Nat → ServiceAck

/-- The daemon object together with the objects its methods reach. -/
structure SLPDaemon where
  /-- Member `m_rpc_port`. -/
  m_rpc_port : Nat
  /-- The address held by `m_service_impl`. -/
  m_service_impl : Nat
  /-- Whether `m_http_server.get()` is non-null (never so without `HAVE_LIBMICROHTTPD`). -/
  m_http_server : Bool
  /-- The `ServiceReply` objects, by address. -/
  replies : Nat → ServiceReply
  /-- The `ServiceAck` objects, by address. -/
  acks : Nat → ServiceAck
  /-- Calls made on collaborators so far, oldest first. -/
  calls : List Call
  /-- Runs of completion closures so far, oldest first, each with the message objects it
  found. -/
  runs : List ClosureRun
  /-- The `OLA_INFO` lines written so far, oldest first. -/
  log : List String

namespace SLPDaemon

/-- Constant `SLPDaemon::DEFAULT_SLP_HTTP_PORT`. -/
def DEFAULT_SLP_HTTP_PORT : Nat := 9012

/-- Constant `SLPDaemon::DEFAULT_SLP_RPC_PORT`. -/
def DEFAULT_SLP_RPC_PORT : Nat := 9011

/-- The constructor: `m_rpc_port(options.rpc_port)`, a fresh `SLPServiceImpl`, and an
HTTP server only when compiled with `HAVE_LIBMICROHTTPD` and `options.enable_http`. -/
def create (have_libmicrohttpd : Bool) (service_impl : Nat) (options : SLPDaemonOptions) :
    SLPDaemon where
  m_rpc_port := options.rpc_port
  m_service_impl := service_impl
  m_http_server := have_libmicrohttpd && options.enable_http
  replies := fun _ => ⟨[]⟩
  acks := fun _ => ⟨false, 0⟩
  calls := []
  runs := []
  log := []

/-- Record a call on a collaborator. -/
def call (c : Call) (d : SLPDaemon) : SLPDaemon := { d with calls := d.calls ++ [c] }

/-- Logging: `OLA_INFO << msg`. -/
def OLA_INFO (msg : String) (d : SLPDaemon) : SLPDaemon := { d with log := d.log ++ [msg] }

/-- Running `done->Run()`: the closure belongs to the RPC channel; here the call is
recorded, together with the message objects the closure finds when it is entered. -/
def Closure_Run (done : Nat) (d : SLPDaemon) : SLPDaemon :=
  { call (.closure_Run done) d with runs := d.runs ++ [⟨done, d.replies, d.acks⟩] }

/-! ## `SLPDaemon` methods -/

/-- Method `SLPDaemon::Init`.  `server_init` and `listen` are what `m_slp_server.Init()` and
`m_rpc_accept_socket.Listen(...)` return. -/
def Init (server_init listen : Bool) (d : SLPDaemon) : Bool × SLPDaemon :=
  let d := call .server_Init d
  if !server_init then (false, d)
  else
    let d := call (.accept_Listen ⟨IPV4Address.Loopback, d.m_rpc_port⟩) d
    if !listen then (false, d)
    else
      let d := call (.ss_AddReadDescriptor .rpc_accept_socket false) d
      let d := if d.m_http_server then call .http_Init d else d
      (true, d)

/-- Method `SLPDaemon::Run`. -/
def Run (d : SLPDaemon) : SLPDaemon :=
  let d := if d.m_http_server then call .http_Start d else d
  call .ss_Run d

/-- Method `SLPDaemon::Stop`. -/
def Stop (d : SLPDaemon) : SLPDaemon :=
  let d := if d.m_http_server then call .http_Stop d else d
  call .ss_Terminate d

/-- Method `SLPDaemon::BulkLoad`. -/
def BulkLoad (scope service : String) (entries : URLEntries) (d : SLPDaemon) : SLPDaemon :=
  call (.server_BulkLoad scope service entries) d

/-- Method `SLPDaemon::DumpStore`. -/
def DumpStore (d : SLPDaemon) : SLPDaemon := call .server_DumpStore d

/-- Method `SLPDaemon::Input`. -/
def Input (c : Char) (d : SLPDaemon) : SLPDaemon :=
  match c with
  | 'p' => DumpStore d
  | 'q' => call .ss_Terminate d
  | _ => d

/-- Method `SLPDaemon::RPCSocketClosed`. -/
def RPCSocketClosed (_socket : TCPSocket) (d : SLPDaemon) : SLPDaemon :=
  OLA_INFO "RPC Socket closed" d

/-- Method `SLPDaemon::NewTCPConnection`. -/
def NewTCPConnection (socket : TCPSocket) (d : SLPDaemon) : SLPDaemon :=
  let d := OLA_INFO ("New connection from " ++ socket.peer_address.ToString ++ ":"
    ++ toString socket.peer_port) d
  let d := call (.new_StreamRpcChannel d.m_service_impl socket) d
  let d := call (.socket_SetOnClose socket ⟨socket⟩) d
  call (.ss_AddReadDescriptor (.tcp socket) true) d

/-- Running the close callback attached by `NewTCPConnection`. -/
def OnCloseCallback_Run (cb : OnCloseCallback) (d : SLPDaemon) : SLPDaemon :=
  RPCSocketClosed cb.socket d

/-- The accept loop: `NewTCPConnection` for each accepted socket, in order. -/
def accept_all (sockets : List TCPSocket) (d : SLPDaemon) : SLPDaemon :=
  sockets.foldl (fun d s => NewTCPConnection s d) d

end SLPDaemon

/-- Method `StdinHandler::HandleCharacter`. -/
def StdinHandler.HandleCharacter (c : Char) (d : SLPDaemon) : SLPDaemon :=
  SLPDaemon.Input c d

namespace SLPDaemon.SLPServiceImpl

/-! ## `SLPServiceImpl` methods -/

/-- Mutator `response->add_service()`: a new default `Service` at the end of the repeated field. -/
def add_service (r : ServiceReply) : ServiceReply := ⟨r.service ++ [⟨"", 0⟩]⟩

/-- Apply `f` to the element `add_service()` last returned (the final one). -/
def modify_last (f : Service → Service) : List Service → List Service
  | [] => []
  | [s] => [f s]
  | s :: t => s :: modify_last f t

/-- Mutator `service->set_service_name(name)` on the entry just added. -/
def set_service_name (name : String) (r : ServiceReply) : ServiceReply :=
  ⟨modify_last (fun s => { s with service_name := name }) r.service⟩

/-- Mutator `service->set_lifetime(lifetime)` on the entry just added. -/
def set_lifetime (lifetime : Nat) (r : ServiceReply) : ServiceReply :=
  ⟨modify_last (fun s => { s with lifetime := lifetime }) r.service⟩

/-- Mutator `response->set_error_code(code)`. -/
def set_error_code (code : Nat) (_r : ServiceAck) : ServiceAck := ⟨true, code⟩

/-- One turn of the loop body of `FindServiceHandler`. -/
def FindServiceHandler_body (r : ServiceReply) (u : URLEntry) : ServiceReply :=
  set_lifetime u.Lifetime (set_service_name u.URL (add_service r))

/-- Method `SLPServiceImpl::FindServiceHandler`. -/
def FindServiceHandler (response done : Nat) (urls : URLEntries) (d : SLPDaemon) :
    SLPDaemon :=
  let d := { d with
    replies := Function.update d.replies response
      (urls.foldl FindServiceHandler_body (d.replies response)) }
  Closure_Run done d

/-- The loop of `FindService` that fills `set<string> scopes`, indexed as in the source. -/
def FindService_scopes (request : ServiceRequest) : Finset String :=
  (List.range request.scope_size).foldl (fun scopes i => insert (request.scope_at i) scopes) ∅

/-- Method `SLPServiceImpl::FindService`. -/
def FindService (request : ServiceRequest) (response done : Nat) (d : SLPDaemon) :
    SLPDaemon :=
  let d := OLA_INFO "Recv FindService request" d
  call (.server_FindService (FindService_scopes request) request.service ⟨response, done⟩) d

/-- Method `SLPServiceImpl::RegisterService`. -/
def RegisterService (_request : ServiceRegistration) (response done : Nat) (d : SLPDaemon) :
    SLPDaemon :=
  let d := OLA_INFO "Recv RegisterService request" d
  let d := { d with acks := Function.update d.acks response (set_error_code 0 (d.acks response)) }
  Closure_Run done d

/-- Method `SLPServiceImpl::DeRegisterService`. -/
def DeRegisterService (_request : ServiceDeRegistration) (response done : Nat)
    (d : SLPDaemon) : SLPDaemon :=
  let d := OLA_INFO "Recv DeRegisterService request" d
  let d := { d with acks := Function.update d.acks response (set_error_code 0 (d.acks response)) }
  Closure_Run done d

/-- Running the single-use callback that `FindService` hands to the server. -/
def FindServiceCallback_Run (cb : FindServiceCallback) (urls : URLEntries) (d : SLPDaemon) :
    SLPDaemon :=
  FindServiceHandler cb.response cb.done urls d

/-- The find path as the server drives it: `FindService`, then the server either never
fires the continuation (`none`) or fires it once with its result (`some urls`). -/
def find_path (request : ServiceRequest) (response done : Nat) (fired : Option URLEntries)
    (d : SLPDaemon) : SLPDaemon :=
  let d := FindService request response done d
  match fired with
  | none => d
  | some urls => FindServiceCallback_Run ⟨response, done⟩ urls d

end SLPDaemon.SLPServiceImpl

/-! ## Auxiliary lemmas -/

open SLPDaemon SLPDaemon.SLPServiceImpl

/-- The `Service` that one loop turn of `FindServiceHandler` builds from a `URLEntry`. -/
def URLEntry.asService (u : URLEntry) : Service := ⟨u.URL, u.Lifetime⟩

theorem modify_last_append_singleton (f : Service → Service) (l : List Service) (s : Service) :
    modify_last f (l ++ [s]) = l ++ [f s] := by
  induction l with
  | nil => rfl
  | cons a t ih =>
    obtain ⟨b, r, hbr⟩ : ∃ b r, t ++ [s] = b :: r := by cases t <;> simp
    rw [List.cons_append, List.cons_append]
    rw [hbr] at ih ⊢
    simp only [modify_last]
    rw [ih]

theorem FindServiceHandler_body_eq (r : ServiceReply) (u : URLEntry) :
    FindServiceHandler_body r u = ⟨r.service ++ [u.asService]⟩ := by
  simp only [FindServiceHandler_body, set_lifetime, set_service_name, add_service,
    modify_last_append_singleton, URLEntry.asService]

theorem FindServiceHandler_loop_eq (urls : URLEntries) (r : ServiceReply) :
    urls.foldl FindServiceHandler_body r = ⟨r.service ++ urls.map URLEntry.asService⟩ := by
  induction urls generalizing r with
  | nil => simp
  | cons u t ih => simp [List.foldl_cons, ih, FindServiceHandler_body_eq]

theorem FindServiceHandler_replies (response done : Nat) (urls : URLEntries) (d : SLPDaemon) :
    ((FindServiceHandler response done urls d).replies response).service
      = (d.replies response).service ++ urls.map URLEntry.asService := by
  simp [FindServiceHandler, Closure_Run, call, FindServiceHandler_loop_eq]

theorem FindServiceHandler_calls (response done : Nat) (urls : URLEntries) (d : SLPDaemon) :
    (FindServiceHandler response done urls d).calls = d.calls ++ [Call.closure_Run done] := rfl

theorem countP_isRun_append_run (done : Nat) (cs : List Call) :
    (cs ++ [Call.closure_Run done]).countP (Call.isRun done)
      = cs.countP (Call.isRun done) + 1 := by
  simp [List.countP_append, Call.isRun]

theorem range_map_scope_at (request : ServiceRequest) :
    (List.range request.scope_size).map request.scope_at = request.scope := by
  apply List.ext_getElem
  · simp [ServiceRequest.scope_size]
  · intro i h1 h2
    simp [ServiceRequest.scope_size] at h1
    simp [ServiceRequest.scope_at, List.getD_eq_getElem?_getD, h1]

theorem foldl_insert_eq (l : List String) (init : Finset String) :
    l.foldl (fun s x => insert x s) init = init ∪ l.toFinset := by
  induction l generalizing init with
  | nil => simp
  | cons a t ih =>
    rw [List.foldl_cons, ih]
    ext x
    simp

theorem FindService_scopes_eq (request : ServiceRequest) :
    FindService_scopes request = request.scope.toFinset := by
  have h := foldl_insert_eq ((List.range request.scope_size).map request.scope_at) ∅
  rw [List.foldl_map, range_map_scope_at] at h
  rw [FindService_scopes, h, Finset.empty_union]

theorem FindService_calls (request : ServiceRequest) (response done : Nat) (d : SLPDaemon) :
    (FindService request response done d).calls
      = d.calls ++ [Call.server_FindService request.scope.toFinset request.service
          ⟨response, done⟩] := by
  simp [FindService, call, OLA_INFO, FindService_scopes_eq]

theorem registrations_append (xs ys : List Call) :
    registrations (xs ++ ys) = registrations xs ++ registrations ys := by
  induction xs with
  | nil => rfl
  | cons c t ih => cases c <;> simp [registrations, ih]

theorem NewTCPConnection_calls (socket : TCPSocket) (d : SLPDaemon) :
    (NewTCPConnection socket d).calls
      = d.calls ++ [Call.new_StreamRpcChannel d.m_service_impl socket,
          Call.socket_SetOnClose socket ⟨socket⟩,
          Call.ss_AddReadDescriptor (Descriptor.tcp socket) true] := by
  simp [NewTCPConnection, call, OLA_INFO]

theorem NewTCPConnection_service_impl (socket : TCPSocket) (d : SLPDaemon) :
    (NewTCPConnection socket d).m_service_impl = d.m_service_impl := rfl

theorem accept_all_service_impl (sockets : List TCPSocket) (d : SLPDaemon) :
    (accept_all sockets d).m_service_impl = d.m_service_impl := by
  induction sockets generalizing d with
  | nil => rfl
  | cons s t ih =>
    simp only [accept_all, List.foldl_cons] at ih ⊢
    rw [ih, NewTCPConnection_service_impl]

theorem accept_all_calls (sockets : List TCPSocket) (d : SLPDaemon) :
    (accept_all sockets d).calls
      = d.calls ++ sockets.flatMap (fun s =>
          [Call.new_StreamRpcChannel d.m_service_impl s,
           Call.socket_SetOnClose s ⟨s⟩,
           Call.ss_AddReadDescriptor (Descriptor.tcp s) true]) := by
  induction sockets generalizing d with
  | nil => simp [accept_all]
  | cons s t ih =>
    simp only [accept_all, List.foldl_cons] at ih ⊢
    rw [ih, NewTCPConnection_calls, NewTCPConnection_service_impl, List.flatMap_cons,
      List.append_assoc]

theorem registrations_accepts (service : Nat) (sockets : List TCPSocket) :
    registrations (sockets.flatMap (fun s =>
        [Call.new_StreamRpcChannel service s,
         Call.socket_SetOnClose s ⟨s⟩,
         Call.ss_AddReadDescriptor (Descriptor.tcp s) true]))
      = sockets.map (fun s => (Descriptor.tcp s, true)) := by
  induction sockets with
  | nil => rfl
  | cons s t ih =>
    rw [List.flatMap_cons, registrations_append, ih]
    rfl

theorem Init_calls (server_init listen : Bool) (d : SLPDaemon) :
    (Init server_init listen d).2.calls
      = d.calls ++ [Call.server_Init]
        ++ (if server_init then [Call.accept_Listen ⟨IPV4Address.Loopback, d.m_rpc_port⟩]
            else [])
        ++ (if server_init && listen
            then [Call.ss_AddReadDescriptor Descriptor.rpc_accept_socket false] else [])
        ++ (if server_init && listen && d.m_http_server then [Call.http_Init] else []) := by
  cases server_init <;> cases listen <;> cases h : d.m_http_server <;>
    simp [Init, call, h]

/-- The find continuation does the same work whether or not `RPCSocketClosed` ran before
it: the source has no branch on the state of the connection. -/
theorem FindServiceHandler_after_RPCSocketClosed (socket : TCPSocket) (response done : Nat)
    (urls : URLEntries) (d : SLPDaemon) :
    (FindServiceHandler response done urls (RPCSocketClosed socket d)).calls
        = (FindServiceHandler response done urls d).calls
    ∧ (FindServiceHandler response done urls (RPCSocketClosed socket d)).replies
        = (FindServiceHandler response done urls d).replies
    ∧ (FindServiceHandler response done urls (RPCSocketClosed socket d)).runs
        = (FindServiceHandler response done urls d).runs := ⟨rfl, rfl, rfl⟩

/-! ## The find continuation -/

/-- C1: when the response holds no service entries beforehand, `FindServiceHandler`
leaves it with exactly `urls.length` entries, the `i`-th one carrying the URL and the
lifetime of `urls[i]`, in the order of `urls`; for the single printer entry the response
is exactly that one entry. -/
theorem FindServiceHandler_fills_empty_response (urls : URLEntries) (response done : Nat)
    (d : SLPDaemon) (h : (d.replies response).service = []) :
    ((FindServiceHandler response done urls d).replies response).service.length = urls.length
    ∧ (∀ (i : Nat) (hi : i < urls.length),
        ((FindServiceHandler response done urls d).replies response).service[i]?
          = some ⟨urls[i].URL, urls[i].Lifetime⟩)
    ∧ ((FindServiceHandler response done urls d).replies response).service
        = urls.map (fun u => ⟨u.URL, u.Lifetime⟩)
    ∧ ((FindServiceHandler response done [⟨"service:printer://10.0.0.5", 600⟩] d).replies
        response).service = [⟨"service:printer://10.0.0.5", 600⟩] := by
  have key : ∀ us : URLEntries, ((FindServiceHandler response done us d).replies response).service
      = us.map (fun u => ⟨u.URL, u.Lifetime⟩) := by
    intro us
    rw [FindServiceHandler_replies, h, List.nil_append]
    rfl
  refine ⟨?_, ?_, key urls, ?_⟩
  · rw [key, List.length_map]
  · intro i hi
    rw [key, List.getElem?_map, List.getElem?_eq_getElem hi]
    rfl
  · rw [key]
    rfl

/-- Witness for C1: two entries delivered to an empty response of a fresh daemon. -/
theorem FindServiceHandler_fills_empty_response_witness :
    (((create false 1 ⟨false, 9012, 9011⟩).replies 7).service = [])
    ∧ ((FindServiceHandler 7 3 [⟨"service:printer://10.0.0.5", 600⟩, ⟨"service:printer://10.0.0.6", 30⟩]
          (create false 1 ⟨false, 9012, 9011⟩)).replies 7).service
        = [⟨"service:printer://10.0.0.5", 600⟩, ⟨"service:printer://10.0.0.6", 30⟩] :=
  ⟨rfl, (FindServiceHandler_fills_empty_response
    [⟨"service:printer://10.0.0.5", 600⟩, ⟨"service:printer://10.0.0.6", 30⟩] 7 3
    (create false 1 ⟨false, 9012, 9011⟩) rfl).2.2.1⟩

/-- C2, as the code has it: one invocation of `FindServiceHandler` runs `done` exactly
once, for any list of entries (empty, one element, many): the only call it makes is
`done->Run()`, and the closure is entered when every entry has already been added to
the response (the response it finds is the final one).  For the empty list the response
is left as it was, so it ends with zero entries when it held none beforehand, and
`done` still runs exactly once. -/
theorem FindServiceHandler_runs_done_once (urls : URLEntries) (response done : Nat)
    (d : SLPDaemon) :
    (FindServiceHandler response done urls d).calls = d.calls ++ [Call.closure_Run done]
    ∧ (FindServiceHandler response done urls d).calls.countP (Call.isRun done)
        = d.calls.countP (Call.isRun done) + 1
    ∧ FindServiceHandler response done urls d
        = Closure_Run done { d with
            replies := Function.update d.replies response
              ⟨(d.replies response).service ++ urls.map (fun u => ⟨u.URL, u.Lifetime⟩)⟩ }
    ∧ (FindServiceHandler response done urls d).runs
        = d.runs ++ [⟨done,
            Function.update d.replies response
              ⟨(d.replies response).service ++ urls.map (fun u => ⟨u.URL, u.Lifetime⟩)⟩,
            d.acks⟩]
    ∧ (FindServiceHandler response done urls d).runs
        = d.runs ++ [⟨done, (FindServiceHandler response done urls d).replies,
            (FindServiceHandler response done urls d).acks⟩]
    ∧ (∀ r : ClosureRun, (FindServiceHandler response done urls d).runs.getLast? = some r →
        r.done = done
        ∧ (r.replies response).service
            = (d.replies response).service ++ urls.map (fun u => ⟨u.URL, u.Lifetime⟩)
        ∧ (r.replies response).service.length
            = (d.replies response).service.length + urls.length)
    ∧ (FindServiceHandler response done [] d).calls.countP (Call.isRun done)
        = d.calls.countP (Call.isRun done) + 1
    ∧ (FindServiceHandler response done [] d).replies = d.replies
    ∧ ((d.replies response).service = [] →
        ((FindServiceHandler response done [] d).replies response).service = []) := by
  have hloop : urls.foldl FindServiceHandler_body (d.replies response)
      = ⟨(d.replies response).service ++ urls.map (fun u => ⟨u.URL, u.Lifetime⟩)⟩ :=
    FindServiceHandler_loop_eq urls (d.replies response)
  have hruns : (FindServiceHandler response done urls d).runs
      = d.runs ++ [⟨done,
          Function.update d.replies response
            ⟨(d.replies response).service ++ urls.map (fun u => ⟨u.URL, u.Lifetime⟩)⟩,
          d.acks⟩] := by
    simp only [FindServiceHandler, Closure_Run, call, hloop]
  refine ⟨rfl, ?_, ?_, hruns, rfl, ?_, ?_, ?_, ?_⟩
  · rw [FindServiceHandler_calls, countP_isRun_append_run]
  · simp only [FindServiceHandler, hloop]
  · intro r hr
    rw [hruns, List.getLast?_concat] at hr
    have hr := Option.some.inj hr
    subst hr
    refine ⟨rfl, ?_, ?_⟩
    · simp
    · simp
  · rw [FindServiceHandler_calls, countP_isRun_append_run]
  · simp [FindServiceHandler, Closure_Run, call]
  · intro h
    rw [FindServiceHandler_replies, h]
    rfl

/-- Witness for C2: the empty list on a fresh daemon leaves no entry and one run of
`done`; with two entries the one run of `done` finds both entries in the response. -/
theorem FindServiceHandler_runs_done_once_witness :
    (((create false 1 ⟨false, 9012, 9011⟩).replies 7).service = [])
    ∧ ((FindServiceHandler 7 3 [] (create false 1 ⟨false, 9012, 9011⟩)).replies 7).service = []
    ∧ (FindServiceHandler 7 3 [] (create false 1 ⟨false, 9012, 9011⟩)).calls
        = [Call.closure_Run 3]
    ∧ ((FindServiceHandler 7 3 [⟨"service:a", 10⟩, ⟨"service:b", 20⟩]
          (create false 1 ⟨false, 9012, 9011⟩)).runs.map
            (fun r => (r.done, (r.replies 7).service)))
        = [(3, [⟨"service:a", 10⟩, ⟨"service:b", 20⟩])] :=
  ⟨rfl,
   (FindServiceHandler_runs_done_once [] 7 3 (create false 1 ⟨false, 9012, 9011⟩)).2.2.2.2.2.2.2.2
     rfl,
   (FindServiceHandler_runs_done_once [] 7 3 (create false 1 ⟨false, 9012, 9011⟩)).1,
   (congrArg (List.map (fun r : ClosureRun => (r.done, (r.replies 7).service)))
     (FindServiceHandler_runs_done_once [⟨"service:a", 10⟩, ⟨"service:b", 20⟩] 7 3
       (create false 1 ⟨false, 9012, 9011⟩)).2.2.2.1).trans rfl⟩

/-- C2 as stated fails: for the empty list, a response that already holds an entry does
not end with zero service entries (the handler only appends); `done` still runs once. -/
theorem FindServiceHandler_empty_list_keeps_prior_entries :
    ((FindServiceHandler 7 3 []
        { create false 1 ⟨false, 9012, 9011⟩ with
          replies := fun _ => ⟨[⟨"service:old", 5⟩]⟩ }).replies 7).service
      = [⟨"service:old", 5⟩]
    ∧ ¬ (((FindServiceHandler 7 3 []
        { create false 1 ⟨false, 9012, 9011⟩ with
          replies := fun _ => ⟨[⟨"service:old", 5⟩]⟩ }).replies 7).service.length = 0)
    ∧ (FindServiceHandler 7 3 []
        { create false 1 ⟨false, 9012, 9011⟩ with
          replies := fun _ => ⟨[⟨"service:old", 5⟩]⟩ }).calls = [Call.closure_Run 3] := by
  refine ⟨?_, ?_, rfl⟩
  · simp [FindServiceHandler, Closure_Run, call, create]
  · simp [FindServiceHandler, Closure_Run, call, create]

/-- C10: `FindServiceHandler` only appends: the entries already in the response stay as
a prefix, followed by one entry per element of `urls` in order, so the length grows by
`urls.length`; every other reply object and every acknowledgement (hence every error
code) is left as it was. -/
theorem FindServiceHandler_appends_only (urls : URLEntries) (response done : Nat)
    (d : SLPDaemon) :
    ((FindServiceHandler response done urls d).replies response).service
        = (d.replies response).service ++ urls.map (fun u => ⟨u.URL, u.Lifetime⟩)
    ∧ ((FindServiceHandler response done urls d).replies response).service.take
          (d.replies response).service.length = (d.replies response).service
    ∧ ((FindServiceHandler response done urls d).replies response).service.length
        = (d.replies response).service.length + urls.length
    ∧ ((((FindServiceHandler response done urls d).replies response).service.length
          = urls.length) ↔ (d.replies response).service = [])
    ∧ (∀ other : Nat, other ≠ response →
        (FindServiceHandler response done urls d).replies other = d.replies other)
    ∧ (FindServiceHandler response done urls d).acks = d.acks := by
  have key := FindServiceHandler_replies response done urls d
  refine ⟨key, ?_, ?_, ?_, ?_, rfl⟩
  · rw [key, List.take_left]
  · rw [key, List.length_append, List.length_map]
  · rw [key, List.length_append, List.length_map]
    constructor
    · intro hlen
      exact List.length_eq_zero.mp (by omega)
    · intro hnil
      rw [hnil]
      simp
  · intro other hne
    simp [FindServiceHandler, Closure_Run, call, Function.update_noteq hne]

/-- Witness for C10: a response already holding one entry keeps it in front, and the
reply object at another address is untouched. -/
theorem FindServiceHandler_appends_only_witness :
    ((8 : Nat) ≠ 7)
    ∧ (FindServiceHandler 7 3 [⟨"service:printer://10.0.0.5", 600⟩]
        { create false 1 ⟨false, 9012, 9011⟩ with
          replies := fun _ => ⟨[⟨"service:old", 5⟩]⟩ }).replies 8 = ⟨[⟨"service:old", 5⟩]⟩
    ∧ ((FindServiceHandler 7 3 [⟨"service:printer://10.0.0.5", 600⟩]
        { create false 1 ⟨false, 9012, 9011⟩ with
          replies := fun _ => ⟨[⟨"service:old", 5⟩]⟩ }).replies 7).service
        = [⟨"service:old", 5⟩, ⟨"service:printer://10.0.0.5", 600⟩] :=
  ⟨by decide,
   (FindServiceHandler_appends_only [⟨"service:printer://10.0.0.5", 600⟩] 7 3
      { create false 1 ⟨false, 9012, 9011⟩ with
        replies := fun _ => ⟨[⟨"service:old", 5⟩]⟩ }).2.2.2.2.1 8 (by decide),
   (FindServiceHandler_appends_only [⟨"service:printer://10.0.0.5", 600⟩] 7 3
      { create false 1 ⟨false, 9012, 9011⟩ with
        replies := fun _ => ⟨[⟨"service:old", 5⟩]⟩ }).1⟩

/-! ## The request handlers -/

/-- C3: `FindService` itself never runs `done` and never touches a response object: the
one call it makes is the server's `FindService`, given one single-use callback bound to
this `response` and this `done`.  Over the whole find path `done` therefore runs as often
as the server fires that callback: not at all if it never fires, once if it fires once. -/
theorem FindService_defers_completion (request : ServiceRequest) (response done : Nat)
    (d : SLPDaemon) :
    (FindService request response done d).calls
        = d.calls ++ [Call.server_FindService (FindService_scopes request) request.service
            ⟨response, done⟩]
    ∧ (∀ c : Nat, (FindService request response done d).calls.countP (Call.isRun c)
        = d.calls.countP (Call.isRun c))
    ∧ (FindService request response done d).calls.countP Call.isServerCall
        = d.calls.countP Call.isServerCall + 1
    ∧ (FindService request response done d).replies = d.replies
    ∧ (FindService request response done d).acks = d.acks
    ∧ (find_path request response done none d).calls.countP (Call.isRun done)
        = d.calls.countP (Call.isRun done)
    ∧ (∀ urls : URLEntries,
        (find_path request response done (some urls) d).calls.countP (Call.isRun done)
          = d.calls.countP (Call.isRun done) + 1)
    ∧ (∀ urls : URLEntries,
        (find_path request response done (some urls) d).calls
          = d.calls ++ [Call.server_FindService (FindService_scopes request) request.service
              ⟨response, done⟩, Call.closure_Run done]) := by
  have hrun : ∀ c : Nat, (FindService request response done d).calls.countP (Call.isRun c)
      = d.calls.countP (Call.isRun c) := by
    intro c
    simp [FindService, call, OLA_INFO, List.countP_append, Call.isRun]
  refine ⟨rfl, hrun, ?_, rfl, rfl, hrun done, ?_, ?_⟩
  · simp [FindService, call, OLA_INFO, List.countP_append, Call.isServerCall]
  · intro urls
    simp only [find_path, FindServiceCallback_Run]
    rw [FindServiceHandler_calls, countP_isRun_append_run, hrun]
  · intro urls
    simp [find_path, FindServiceCallback_Run, FindServiceHandler_calls, FindService, call,
      OLA_INFO]

/-- C7: the scopes handed to the server are exactly the set of strings in the request's
repeated `scope` field and the service type is the request's `service` string; requests
with the same service string whose scope lists hold the same strings (in any order, with
any repetition) make the same server call, and a request without scopes is forwarded
with the empty scope set. -/
theorem FindService_forwards_scope_set (request : ServiceRequest) (response done : Nat)
    (d : SLPDaemon) :
    (FindService request response done d).calls
        = d.calls ++ [Call.server_FindService request.scope.toFinset request.service
            ⟨response, done⟩]
    ∧ (∀ s : String, s ∈ FindService_scopes request ↔ s ∈ request.scope)
    ∧ (∀ other : ServiceRequest, other.service = request.service →
        (∀ s : String, s ∈ other.scope ↔ s ∈ request.scope) →
        FindService other response done d = FindService request response done d)
    ∧ (request.scope = [] →
        (FindService request response done d).calls
          = d.calls ++ [Call.server_FindService ∅ request.service ⟨response, done⟩]) := by
  refine ⟨FindService_calls request response done d, ?_, ?_, ?_⟩
  · intro s
    rw [FindService_scopes_eq, List.mem_toFinset]
  · intro other hservice hscope
    have hset : FindService_scopes other = FindService_scopes request := by
      rw [FindService_scopes_eq, FindService_scopes_eq]
      ext s
      rw [List.mem_toFinset, List.mem_toFinset]
      exact hscope s
    simp only [FindService, hset, hservice]
  · intro hnil
    rw [FindService_calls, hnil]
    rfl

/-- Witness for C7: the scope lists `a, b, a` and `b, a` give the same server call, and
a request with no scope is forwarded with the empty set. -/
theorem FindService_forwards_scope_set_witness :
    ((⟨["b", "a"], "service:printer"⟩ : ServiceRequest).service
        = (⟨["a", "b", "a"], "service:printer"⟩ : ServiceRequest).service)
    ∧ (∀ s : String, s ∈ (⟨["b", "a"], "service:printer"⟩ : ServiceRequest).scope
        ↔ s ∈ (⟨["a", "b", "a"], "service:printer"⟩ : ServiceRequest).scope)
    ∧ FindService ⟨["b", "a"], "service:printer"⟩ 7 3 (create false 1 ⟨false, 9012, 9011⟩)
        = FindService ⟨["a", "b", "a"], "service:printer"⟩ 7 3
            (create false 1 ⟨false, 9012, 9011⟩)
    ∧ (FindService ⟨[], "service:printer"⟩ 7 3 (create false 1 ⟨false, 9012, 9011⟩)).calls
        = [Call.server_FindService ∅ "service:printer" ⟨7, 3⟩] :=
  have hscope : ∀ s : String, s ∈ (⟨["b", "a"], "service:printer"⟩ : ServiceRequest).scope
      ↔ s ∈ (⟨["a", "b", "a"], "service:printer"⟩ : ServiceRequest).scope := by
    intro s
    simp only [List.mem_cons, List.mem_singleton, List.not_mem_nil, or_false]
    tauto
  ⟨rfl, hscope,
   (FindService_forwards_scope_set ⟨["a", "b", "a"], "service:printer"⟩ 7 3
      (create false 1 ⟨false, 9012, 9011⟩)).2.2.1 ⟨["b", "a"], "service:printer"⟩ rfl hscope,
   (FindService_forwards_scope_set ⟨[], "service:printer"⟩ 7 3
      (create false 1 ⟨false, 9012, 9011⟩)).2.2.2 rfl⟩

/-- C4: for any request and any prior response, `RegisterService` and
`DeRegisterService` each set `error_code` to 0, make `done->Run()` their one and final
call, and make no call on the SLP server. -/
theorem Register_DeRegister_ack_unconditionally (reg : ServiceRegistration)
    (dereg : ServiceDeRegistration) (response done : Nat) (d : SLPDaemon) :
    (((RegisterService reg response done d).acks response).error_code = 0
      ∧ ((RegisterService reg response done d).acks response).has_error_code = true
      ∧ (RegisterService reg response done d).calls = d.calls ++ [Call.closure_Run done]
      ∧ (RegisterService reg response done d).calls.countP (Call.isRun done)
          = d.calls.countP (Call.isRun done) + 1
      ∧ (RegisterService reg response done d).calls.filter Call.isServerCall
          = d.calls.filter Call.isServerCall
      ∧ RegisterService reg response done d
          = Closure_Run done (OLA_INFO "Recv RegisterService request"
              { d with acks := Function.update d.acks response ⟨true, 0⟩ }))
    ∧ (((DeRegisterService dereg response done d).acks response).error_code = 0
      ∧ ((DeRegisterService dereg response done d).acks response).has_error_code = true
      ∧ (DeRegisterService dereg response done d).calls = d.calls ++ [Call.closure_Run done]
      ∧ (DeRegisterService dereg response done d).calls.countP (Call.isRun done)
          = d.calls.countP (Call.isRun done) + 1
      ∧ (DeRegisterService dereg response done d).calls.filter Call.isServerCall
          = d.calls.filter Call.isServerCall
      ∧ DeRegisterService dereg response done d
          = Closure_Run done (OLA_INFO "Recv DeRegisterService request"
              { d with acks := Function.update d.acks response ⟨true, 0⟩ })) := by
  refine ⟨⟨?_, ?_, rfl, ?_, ?_, rfl⟩, ⟨?_, ?_, rfl, ?_, ?_, rfl⟩⟩
  · simp [RegisterService, Closure_Run, call, OLA_INFO, set_error_code]
  · simp [RegisterService, Closure_Run, call, OLA_INFO, set_error_code]
  · exact countP_isRun_append_run done d.calls
  · simp [RegisterService, Closure_Run, call, OLA_INFO, List.filter_append, Call.isServerCall]
  · simp [DeRegisterService, Closure_Run, call, OLA_INFO, set_error_code]
  · simp [DeRegisterService, Closure_Run, call, OLA_INFO, set_error_code]
  · exact countP_isRun_append_run done d.calls
  · simp [DeRegisterService, Closure_Run, call, OLA_INFO, List.filter_append, Call.isServerCall]

/-! ## Daemon lifecycle, console input and connections -/

/-- C5: `Init` calls the server's `Init`, then `Listen` on the loopback RPC port, then
registers the accepting socket, and stops at the first step that fails.  It returns true
exactly when both `Init` and `Listen` return true; when the server's `Init` fails no
`Listen` is attempted; when `Listen` fails the accepting socket is not registered; in no
case does it call the select server's `Run`. -/
theorem Init_ordered_and_fail_fast (server_init listen : Bool) (d : SLPDaemon) :
    ((Init server_init listen d).1 = true ↔ (server_init = true ∧ listen = true))
    ∧ (server_init = false →
        (Init server_init listen d).2.calls = d.calls ++ [Call.server_Init])
    ∧ (server_init = true → listen = false →
        (Init server_init listen d).2.calls
          = d.calls ++ [Call.server_Init,
              Call.accept_Listen ⟨IPV4Address.Loopback, d.m_rpc_port⟩])
    ∧ (server_init = true → listen = true →
        (Init server_init listen d).2.calls
          = d.calls ++ [Call.server_Init,
              Call.accept_Listen ⟨IPV4Address.Loopback, d.m_rpc_port⟩,
              Call.ss_AddReadDescriptor Descriptor.rpc_accept_socket false]
            ++ (if d.m_http_server then [Call.http_Init] else []))
    ∧ ((Init server_init listen d).1 = false →
        registrations (Init server_init listen d).2.calls = registrations d.calls)
    ∧ (Init server_init listen d).2.calls.count Call.ss_Run = d.calls.count Call.ss_Run := by
  refine ⟨?_, ?_, ?_, ?_, ?_, ?_⟩
  · cases server_init <;> cases listen <;> simp [Init]
  · intro h
    rw [Init_calls, h]
    simp
  · intro h1 h2
    rw [Init_calls, h1, h2]
    simp
  · intro h1 h2
    rw [Init_calls, h1, h2]
    simp
  · intro hfail
    rw [Init_calls]
    cases server_init <;> cases listen <;>
      simp [Init, registrations_append, registrations] at hfail ⊢
  · rw [Init_calls]
    cases server_init <;> cases listen <;> cases d.m_http_server <;>
      simp [List.count_append]

/-- Witness for C5: on a fresh daemon, a failing server `Init` leaves only that call;
a failing `Listen` leaves `Init` and `Listen` and no registration; success registers
the accepting socket. -/
theorem Init_ordered_and_fail_fast_witness :
    (Init false true (create false 1 ⟨false, 9012, 9011⟩)).2.calls = [Call.server_Init]
    ∧ (Init true false (create false 1 ⟨false, 9012, 9011⟩)).2.calls
        = [Call.server_Init, Call.accept_Listen ⟨IPV4Address.Loopback, 9011⟩]
    ∧ (Init true true (create false 1 ⟨false, 9012, 9011⟩)).2.calls
        = [Call.server_Init, Call.accept_Listen ⟨IPV4Address.Loopback, 9011⟩,
            Call.ss_AddReadDescriptor Descriptor.rpc_accept_socket false]
    ∧ registrations (Init true false (create false 1 ⟨false, 9012, 9011⟩)).2.calls = [] :=
  ⟨(Init_ordered_and_fail_fast false true (create false 1 ⟨false, 9012, 9011⟩)).2.1 rfl,
   (Init_ordered_and_fail_fast true false (create false 1 ⟨false, 9012, 9011⟩)).2.2.1 rfl rfl,
   (Init_ordered_and_fail_fast true true (create false 1 ⟨false, 9012, 9011⟩)).2.2.2.1 rfl rfl,
   (Init_ordered_and_fail_fast true false (create false 1 ⟨false, 9012, 9011⟩)).2.2.2.2.1 rfl⟩

/-- C6: `Input` on `p` asks the server to dump its store, once, and does nothing else;
on `q` it asks the select server to terminate, once, and does nothing else; on any
other character, `P` and `Q` included, it leaves the state as it was.
`StdinHandler::HandleCharacter` is `Input`. -/
theorem Input_dispatch (c : Char) (d : SLPDaemon) :
    Input 'p' d = { d with calls := d.calls ++ [Call.server_DumpStore] }
    ∧ Input 'q' d = { d with calls := d.calls ++ [Call.ss_Terminate] }
    ∧ (c ≠ 'p' → c ≠ 'q' → Input c d = d)
    ∧ Input 'P' d = d
    ∧ Input 'Q' d = d
    ∧ ((Input c d).calls.count Call.server_DumpStore
        = d.calls.count Call.server_DumpStore + (if c = 'p' then 1 else 0))
    ∧ ((Input c d).calls.count Call.ss_Terminate
        = d.calls.count Call.ss_Terminate + (if c = 'q' then 1 else 0))
    ∧ StdinHandler.HandleCharacter c d = Input c d := by
  have hother : c ≠ 'p' → c ≠ 'q' → Input c d = d := by
    intro hp hq
    unfold Input
    split
    · exact absurd rfl hp
    · exact absurd rfl hq
    · rfl
  refine ⟨rfl, rfl, hother, rfl, rfl, ?_, ?_, rfl⟩
  · by_cases hp : c = 'p'
    · subst hp
      simp [Input, DumpStore, call, List.count_append]
    · by_cases hq : c = 'q'
      · subst hq
        simp [Input, call, List.count_append]
      · rw [hother hp hq, if_neg hp]
        rfl
  · by_cases hp : c = 'p'
    · subst hp
      simp [Input, DumpStore, call, List.count_append]
    · by_cases hq : c = 'q'
      · subst hq
        simp [Input, call, List.count_append]
      · rw [hother hp hq, if_neg hq]
        rfl

/-- Witness for C6: the character `x` leaves a fresh daemon without any call. -/
theorem Input_dispatch_witness :
    ('x' ≠ 'p') ∧ ('x' ≠ 'q')
    ∧ (Input 'x' (create false 1 ⟨false, 9012, 9011⟩)).calls = [] :=
  ⟨by decide, by decide,
   congrArg SLPDaemon.calls
    ((Input_dispatch 'x' (create false 1 ⟨false, 9012, 9011⟩)).2.2.1 (by decide) (by decide))⟩

/-- C9: each `NewTCPConnection` builds one RPC channel on the daemon's one service
implementation and the accepted socket, sets one close handler on that socket, and
registers that socket once with `delete_on_close = true`.  After accepting a list of
distinct sockets the registrations issued are exactly those sockets, each once and
each owned; the accepting socket that `Init` registers is registered without ownership.
`RPCSocketClosed` only writes a log line. -/
theorem NewTCPConnection_registers_each_socket_once (sockets : List TCPSocket)
    (d : SLPDaemon) (hdistinct : sockets.Nodup) :
    (∀ s : TCPSocket, (NewTCPConnection s d).calls
        = d.calls ++ [Call.new_StreamRpcChannel d.m_service_impl s,
            Call.socket_SetOnClose s ⟨s⟩,
            Call.ss_AddReadDescriptor (Descriptor.tcp s) true])
    ∧ (accept_all sockets d).calls
        = d.calls ++ sockets.flatMap (fun s =>
            [Call.new_StreamRpcChannel d.m_service_impl s,
             Call.socket_SetOnClose s ⟨s⟩,
             Call.ss_AddReadDescriptor (Descriptor.tcp s) true])
    ∧ (accept_all sockets d).m_service_impl = d.m_service_impl
    ∧ registrations (accept_all sockets d).calls
        = registrations d.calls ++ sockets.map (fun s => (Descriptor.tcp s, true))
    ∧ (registrations d.calls = [] →
        (registrations (accept_all sockets d).calls).length = sockets.length
        ∧ (∀ s : TCPSocket, s ∈ sockets →
            (registrations (accept_all sockets d).calls).countP
                (fun r => decide (r = (Descriptor.tcp s, true))) = 1
            ∧ (Descriptor.tcp s, false) ∉ registrations (accept_all sockets d).calls)
        ∧ (∀ r : Descriptor × Bool, r ∈ registrations (accept_all sockets d).calls →
            ∃ s : TCPSocket, s ∈ sockets ∧ r = (Descriptor.tcp s, true)))
    ∧ registrations (accept_all sockets (Init true true d).2).calls
        = registrations d.calls ++ (Descriptor.rpc_accept_socket, false)
            :: sockets.map (fun s => (Descriptor.tcp s, true))
    ∧ (∀ s : TCPSocket,
        RPCSocketClosed s d = { d with log := d.log ++ ["RPC Socket closed"] }
        ∧ (RPCSocketClosed s d).calls = d.calls
        ∧ OnCloseCallback_Run ⟨s⟩ d = RPCSocketClosed s d) := by
  have hreg : ∀ e : SLPDaemon, registrations (accept_all sockets e).calls
      = registrations e.calls ++ sockets.map (fun s => (Descriptor.tcp s, true)) := by
    intro e
    rw [accept_all_calls, registrations_append, registrations_accepts]
  have hinj : Function.Injective (fun s : TCPSocket => (Descriptor.tcp s, true)) := by
    intro a b hab
    simpa using hab
  refine ⟨fun s => NewTCPConnection_calls s d, accept_all_calls sockets d,
    accept_all_service_impl sockets d, hreg d, ?_, ?_, fun s => ⟨rfl, rfl, rfl⟩⟩
  · intro hnone
    rw [hreg d, hnone, List.nil_append]
    refine ⟨List.length_map _ _, ?_, ?_⟩
    · intro s hs
      refine ⟨?_, ?_⟩
      · exact (List.count_map_of_injective sockets _ hinj s).trans
          (List.count_eq_one_of_mem hdistinct hs)
      · simp
    · intro r hr
      obtain ⟨s, hs, rfl⟩ := List.mem_map.mp hr
      exact ⟨s, hs, rfl⟩
  · rw [hreg, Init_calls]
    cases d.m_http_server <;> simp [registrations_append, registrations]

/-- Witness for C9: two distinct sockets accepted by a freshly initialised daemon. -/
theorem NewTCPConnection_registers_each_socket_once_witness :
    ([(⟨4, ⟨127, 0, 0, 1⟩, 50000⟩ : TCPSocket), ⟨5, ⟨127, 0, 0, 1⟩, 50001⟩].Nodup)
    ∧ registrations (accept_all [⟨4, ⟨127, 0, 0, 1⟩, 50000⟩, ⟨5, ⟨127, 0, 0, 1⟩, 50001⟩]
        (Init true true (create false 1 ⟨false, 9012, 9011⟩)).2).calls
      = [(Descriptor.rpc_accept_socket, false),
         (Descriptor.tcp ⟨4, ⟨127, 0, 0, 1⟩, 50000⟩, true),
         (Descriptor.tcp ⟨5, ⟨127, 0, 0, 1⟩, 50001⟩, true)]
    ∧ registrations (create false 1 ⟨false, 9012, 9011⟩).calls = []
    ∧ (registrations (accept_all [⟨4, ⟨127, 0, 0, 1⟩, 50000⟩, ⟨5, ⟨127, 0, 0, 1⟩, 50001⟩]
        (create false 1 ⟨false, 9012, 9011⟩)).calls).length = 2 :=
  ⟨by decide,
   (NewTCPConnection_registers_each_socket_once
      [⟨4, ⟨127, 0, 0, 1⟩, 50000⟩, ⟨5, ⟨127, 0, 0, 1⟩, 50001⟩]
      (create false 1 ⟨false, 9012, 9011⟩) (by decide)).2.2.2.2.2.1,
   rfl,
   ((NewTCPConnection_registers_each_socket_once
      [⟨4, ⟨127, 0, 0, 1⟩, 50000⟩, ⟨5, ⟨127, 0, 0, 1⟩, 50001⟩]
      (create false 1 ⟨false, 9012, 9011⟩) (by decide)).2.2.2.2.1 rfl).1⟩

end ola.slp
